import Mathlib

/-!
Verification of the stop-loss-guardian core against its specification.

Python `Decimal` values are modelled as exact rationals (`ℚ`), timestamps
as integer seconds (`ℤ`), and `timedelta(minutes=m)` as `m * 60` seconds.
`Decimal.to_integral_value(rounding=ROUND_DOWN)` truncates toward zero,
which is `ratTruncDown` below.  Interpolated human-readable message strings
are modelled as tagged variants carrying the interpolated data, since the
claims are about which message branch is produced, not its formatting.
-/

namespace StopLossGuardian

/-- Truncation toward zero on rationals, the meaning of Python's
`ROUND_DOWN` in `to_integral_value(rounding=ROUND_DOWN)`. -/
def ratTruncDown (q : ℚ) : ℤ :=
  if 0 ≤ q then ⌊q⌋ else ⌈q⌉

theorem ratTruncDown_of_nonneg {q : ℚ} (h : 0 ≤ q) : ratTruncDown q = ⌊q⌋ :=
  if_pos h

theorem ratTruncDown_mono {a b : ℚ} (h : a ≤ b) : ratTruncDown a ≤ ratTruncDown b := by
  unfold ratTruncDown
  by_cases ha : 0 ≤ a
  · rw [if_pos ha, if_pos (le_trans ha h)]
    exact Int.floor_le_floor h
  · rw [if_neg ha]
    by_cases hb : 0 ≤ b
    · rw [if_pos hb]
      calc ⌈a⌉ ≤ 0 := Int.ceil_le.mpr (by exact_mod_cast le_of_not_le ha)
        _ ≤ ⌊b⌋ := Int.le_floor.mpr (by exact_mod_cast hb)
    · rw [if_neg hb]
      exact Int.ceil_le_ceil h

/-- Blocking reasons produced by `PositionSizer.calculate`
(`blocked_reason` strings in the source, as tagged variants). -/
inductive BlockReason where
  /-- "Entry price must be positive" -/
  | entryNotPositive
  /-- "Stop price must be positive" -/
  | stopNotPositive
  /-- "Stop price must be below entry price for long positions" -/
  | stopNotBelowEntry
  /-- "Stock too expensive for account size. Entry $… requires minimum … shares." -/
  | tooExpensive (minShares : ℤ)
  /-- "Risk …% exceeds max …%" -/
  | riskExceedsMax
  /-- "Position …% exceeds max …%" -/
  | positionExceedsMax
  deriving DecidableEq, Repr

/-- Advisory (non-blocking) warnings of `PositionSizer.calculate`. -/
inductive SizerWarning where
  /-- "Can only buy … share(s) - limited diversification" -/
  | limitedDiversification (shares : ℤ)
  /-- "Very tight stop (…%) - may get stopped out by noise" -/
  | veryTightStop
  /-- "Wide stop (…%) - consider tighter risk management" -/
  | wideStop
  /-- "R:R … is below recommended 2:1" -/
  | lowRewardRisk
  deriving DecidableEq, Repr

/-- `models.PositionSizeResult`. -/
structure PositionSizeResult where
  symbol : String
  entry_price : ℚ
  stop_price : ℚ
  account_balance : ℚ
  risk_per_share : ℚ
  max_shares : ℤ
  dollar_risk : ℚ
  risk_pct : ℚ
  position_value : ℚ
  position_pct : ℚ
  is_valid : Bool
  warnings : List SizerWarning
  blocked_reason : Option BlockReason
  deriving DecidableEq, Repr

/-- The all-zero invalid result returned by each early-validation branch of
`PositionSizer.calculate`. -/
def invalidResult (symbol : String) (entry_price stop_price account_balance : ℚ)
    (reason : BlockReason) : PositionSizeResult :=
  { symbol := symbol
    entry_price := entry_price
    stop_price := stop_price
    account_balance := account_balance
    risk_per_share := 0
    max_shares := 0
    dollar_risk := 0
    risk_pct := 0
    position_value := 0
    position_pct := 0
    is_valid := false
    warnings := []
    blocked_reason := some reason }

/-- Main branch of `PositionSizer.calculate` (all three input validations
passed).  Mirrors position_sizer.py lines 102-179. -/
def calculateMain (max_risk_pct max_position_pct : ℚ) (symbol : String)
    (entry_price stop_price account_balance : ℚ) (target_price : Option ℚ) :
    PositionSizeResult :=
  let risk_per_share := entry_price - stop_price
  let max_dollar_risk := account_balance * (max_risk_pct / 100)
  let max_shares_by_risk := ratTruncDown (max_dollar_risk / risk_per_share)
  let max_position_value := account_balance * (max_position_pct / 100)
  let max_shares_by_position := ratTruncDown (max_position_value / entry_price)
  let max_shares := min max_shares_by_risk max_shares_by_position
  let position_value : ℚ := if 0 < max_shares then (max_shares : ℚ) * entry_price else 0
  let dollar_risk : ℚ := if 0 < max_shares then (max_shares : ℚ) * risk_per_share else 0
  let risk_pct : ℚ := if 0 < max_shares then dollar_risk / account_balance * 100 else 0
  let position_pct : ℚ := if 0 < max_shares then position_value / account_balance * 100 else 0
  -- `is_valid` / `blocked_reason` / `warnings`, reassigned sequentially in the source
  let validity1 : Bool × Option BlockReason × List SizerWarning :=
    if max_shares = 0 then
      (false,
       some (BlockReason.tooExpensive
         (let m := ratTruncDown (max_position_value / entry_price)
          if m = 0 then 1 else m)),
       [])
    else if max_shares < 2 then
      (true, none, [SizerWarning.limitedDiversification max_shares])
    else (true, none, [])
  let validity2 : Bool × Option BlockReason :=
    if max_risk_pct < risk_pct then (false, some BlockReason.riskExceedsMax)
    else (validity1.1, validity1.2.1)
  let validity3 : Bool × Option BlockReason :=
    if max_position_pct < position_pct then (false, some BlockReason.positionExceedsMax)
    else validity2
  let stop_pct := (entry_price - stop_price) / entry_price * 100
  let warnings2 := validity1.2.2 ++
    (if stop_pct < 3 then [SizerWarning.veryTightStop]
     else if 15 < stop_pct then [SizerWarning.wideStop] else [])
  let warnings3 := warnings2 ++
    (match target_price with
     | some t =>
         if entry_price < t ∧ (t - entry_price) / risk_per_share < 2 then
           [SizerWarning.lowRewardRisk]
         else []
     | none => [])
  { symbol := symbol
    entry_price := entry_price
    stop_price := stop_price
    account_balance := account_balance
    risk_per_share := risk_per_share
    max_shares := max_shares
    dollar_risk := dollar_risk
    risk_pct := risk_pct
    position_value := position_value
    position_pct := position_pct
    is_valid := validity3.1
    warnings := warnings3
    blocked_reason := validity3.2 }

/-- `PositionSizer.calculate` (position_sizer.py lines 30-179).
`max_risk_pct` / `max_position_pct` are the sizer's constructor
parameters (defaults 2 and 20). -/
def calculate (max_risk_pct max_position_pct : ℚ) (symbol : String)
    (entry_price stop_price account_balance : ℚ) (target_price : Option ℚ) :
    PositionSizeResult :=
  if entry_price ≤ 0 then
    invalidResult symbol entry_price stop_price account_balance BlockReason.entryNotPositive
  else if stop_price ≤ 0 then
    invalidResult symbol entry_price stop_price account_balance BlockReason.stopNotPositive
  else if entry_price ≤ stop_price then
    invalidResult symbol entry_price stop_price account_balance BlockReason.stopNotBelowEntry
  else
    calculateMain max_risk_pct max_position_pct symbol entry_price stop_price
      account_balance target_price

/-- `PositionSizer.suggest_stop_loss` with the default "percentage" method:
`entry * (1 - default_stop_loss_pct / 100)`. -/
def suggest_stop_loss (default_stop_loss_pct : ℚ) (entry_price : ℚ) : ℚ :=
  entry_price * (1 - default_stop_loss_pct / 100)

/-- `models.Severity`. -/
inductive Severity where
  | info
  | warning
  | urgent
  | critical
  deriving DecidableEq, Repr

/-- `models.AlertChannel`. -/
inductive AlertChannel where
  | telegram
  | sms
  | phone_call
  deriving DecidableEq, Repr

/-- The subset of `config.Settings` the core logic reads.  Timestamps are
integer seconds, `*_minutes` fields are minutes (multiplied by 60 where the
source builds a `timedelta`). -/
structure Settings where
  escalation_interval_minutes : ℤ
  max_telegram_alerts : ℕ
  max_sms_alerts : ℕ
  drawdown_warning_pct : ℚ
  drawdown_critical_pct : ℚ
  default_stop_loss_pct : ℚ
  price_staleness_minutes : ℤ
  deriving DecidableEq, Repr

/-- `models.StopLossRecord`, restricted to the fields the escalation logic
reads and writes.  `alert_escalation_level` is the raw string column. -/
structure TrackingRecord where
  alert_count : ℕ
  alert_escalation_level : String
  acknowledged : Bool
  missing_stop_alert_sent : Bool
  updated_at : ℤ
  deriving DecidableEq, Repr

/-- `models.Position`, restricted to the fields the monitoring loop reads. -/
structure Position where
  symbol : String
  quantity : ℚ
  entry_price : ℚ
  current_price : Option ℚ
  price_updated_at : Option ℤ
  stop_loss_price : Option ℚ
  deriving DecidableEq, Repr

/-- `Position.has_stop_loss`. -/
def Position.has_stop_loss (p : Position) : Bool :=
  p.stop_loss_price.isSome

/-- `Position.current_drawdown_pct`: `(current - entry) / entry * 100`,
`None` when there is no current price. -/
def Position.current_drawdown_pct (p : Position) : Option ℚ :=
  p.current_price.map fun c => (c - p.entry_price) / p.entry_price * 100

/-- `Position.stop_loss_triggered`: a stop exists and `current ≤ stop`. -/
def Position.stop_loss_triggered (p : Position) : Bool :=
  match p.stop_loss_price, p.current_price with
  | some s, some c => decide (c ≤ s)
  | _, _ => false

/-- `StopLossGuardian._is_price_stale` (guardian.py lines 440-452): `None`
timestamp is stale, otherwise stale iff the age strictly exceeds
`price_staleness_minutes`. -/
def is_price_stale (cfg : Settings) (price_updated_at : Option ℤ) (now : ℤ) : Bool :=
  match price_updated_at with
  | none => true
  | some t => decide (cfg.price_staleness_minutes * 60 < now - t)

/-- `AlertDispatcher._determine_escalation` (dispatcher.py lines 102-149). -/
def determine_escalation (cfg : Settings) (severity : Severity) (current_level : ℤ)
    (last_alert_time : Option ℤ) (now : ℤ) : ℤ :=
  if severity = Severity.critical then 2
  else if severity = Severity.urgent ∧ current_level < 1 then 1
  else
    let dflt : ℤ :=
      if severity = Severity.warning then max current_level 0
      else if severity = Severity.urgent then max current_level 1
      else current_level
    match last_alert_time with
    | some t =>
        if cfg.escalation_interval_minutes * 60 ≤ now - t then min (current_level + 1) 2
        else dflt
    | none => dflt

/-- `AlertDispatcher._get_channel` (dispatcher.py lines 151-158). -/
def get_channel (escalation_level : ℤ) : AlertChannel :=
  if 2 ≤ escalation_level then AlertChannel.phone_call
  else if escalation_level = 1 then AlertChannel.sms
  else AlertChannel.telegram

/-- The string-to-int level map inside `StopLossGuardian._get_escalation_level`
(guardian.py lines 402-407), default 0. -/
def level_from_string (s : String) : ℤ :=
  if s = "none" then 0
  else if s = "telegram" then 0
  else if s = "sms" then 1
  else if s = "phone_call" then 2
  else 0

/-- `StopLossGuardian._get_escalation_level` (guardian.py lines 400-415):
count-based promotion on top of the stored level. -/
def get_escalation_level (cfg : Settings) (tr : TrackingRecord) : ℤ :=
  let current_level := level_from_string tr.alert_escalation_level
  if current_level = 0 ∧ cfg.max_telegram_alerts ≤ tr.alert_count then 1
  else if current_level = 1 ∧ cfg.max_telegram_alerts + cfg.max_sms_alerts ≤ tr.alert_count then 2
  else current_level

/-- `StopLossGuardian._should_send_alert` (guardian.py lines 388-398). -/
def should_send_alert (cfg : Settings) (tr : TrackingRecord) (now : ℤ) : Bool :=
  if tr.alert_count = 0 then true
  else decide (cfg.escalation_interval_minutes * 60 ≤ now - tr.updated_at)

/-- The channel string written back by guardian.py line 329:
`"telegram" if level == 0 else "sms" if level == 1 else "phone_call"`. -/
def channel_string (escalation_level : ℤ) : String :=
  if escalation_level = 0 then "telegram"
  else if escalation_level = 1 then "sms"
  else "phone_call"

/-- `Repository.mark_alert_sent` (repository.py lines 205-228), applied to
the in-model tracking record: sets `missing_stop_alert_sent`, increments
`alert_count`, stores the channel string into `alert_escalation_level` and
sets `updated_at = NOW()`. -/
def mark_alert_sent (tr : TrackingRecord) (now : ℤ) (channel : String) : TrackingRecord :=
  { tr with
    missing_stop_alert_sent := true
    alert_count := tr.alert_count + 1
    alert_escalation_level := channel
    updated_at := now }

/-- Outcome of the external notifier collaborators for one dispatch:
whether each channel accepts the message. -/
structure NotifierEnv where
  telegram_ok : Bool
  sms_ok : Bool
  call_ok : Bool
  deriving DecidableEq, Repr

/-- Success computation of `AlertDispatcher.dispatch` (dispatcher.py lines
62-78): a phone-call dispatch also attempts SMS and succeeds if either
channel accepts. -/
def send_success (env : NotifierEnv) : AlertChannel → Bool
  | AlertChannel.telegram => env.telegram_ok
  | AlertChannel.sms => env.sms_ok
  | AlertChannel.phone_call => env.sms_ok || env.call_ok

/-- Severity chosen in `AlertDispatcher.send_missing_stop_loss_alert`
(dispatcher.py lines 174-180).  Python truthiness: a `None` or zero
`drawdown_pct` falls through to WARNING. -/
def missing_stop_severity (cfg : Settings) (drawdown_pct : Option ℚ) : Severity :=
  match drawdown_pct with
  | some d =>
      if d ≠ 0 ∧ d ≤ -cfg.drawdown_critical_pct then Severity.critical
      else if d ≠ 0 ∧ d ≤ -cfg.drawdown_warning_pct then Severity.urgent
      else Severity.warning
  | none => Severity.warning

/-- The missing-stop alert as dispatched: the payload fields of the built
`Alert` plus the channel used and whether any channel accepted it. -/
structure MissingStopAlert where
  symbol : String
  entry_price : ℚ
  current_price : Option ℚ
  drawdown_pct : Option ℚ
  suggested_stop : ℚ
  severity : Severity
  escalation_level : ℤ
  channel : AlertChannel
  sent : Bool
  deriving DecidableEq, Repr

/-- `StopLossGuardian._handle_missing_stop_loss` (guardian.py lines 280-336)
composed with `AlertDispatcher.send_missing_stop_loss_alert` and
`AlertDispatcher.dispatch`.  Returns the dispatched alert (none when the
should-send gate suppresses it) and the tracking record after the call.
Python truthiness: `float(x) if x and not stale else None` maps a missing
or zero value to `None`.  `mark_alert_sent` is called unconditionally
after the dispatch, ignoring the dispatch success flag. -/
def handle_missing_stop_loss (cfg : Settings) (env : NotifierEnv) (pos : Position)
    (tr : TrackingRecord) (now : ℤ) (price_is_stale : Bool) :
    Option MissingStopAlert × TrackingRecord :=
  if should_send_alert cfg tr now = false then (none, tr)
  else
    let suggested_stop := suggest_stop_loss cfg.default_stop_loss_pct pos.entry_price
    let escalation_level := get_escalation_level cfg tr
    let current_price : Option ℚ :=
      match pos.current_price with
      | some c => if c ≠ 0 ∧ price_is_stale = false then some c else none
      | none => none
    let drawdown_pct : Option ℚ :=
      match pos.current_drawdown_pct with
      | some d => if d ≠ 0 ∧ price_is_stale = false then some d else none
      | none => none
    let severity := missing_stop_severity cfg drawdown_pct
    let dispatch_level := determine_escalation cfg severity escalation_level (some tr.updated_at) now
    let channel := get_channel dispatch_level
    let success := send_success env channel
    (some
      { symbol := pos.symbol
        entry_price := pos.entry_price
        current_price := current_price
        drawdown_pct := drawdown_pct
        suggested_stop := suggested_stop
        severity := severity
        escalation_level := escalation_level
        channel := channel
        sent := success },
     mark_alert_sent tr now (channel_string escalation_level))

/-- The critical-drawdown cooldown state: the in-memory dict
`_critical_drawdown_cooldowns` and its persisted Redis backing store. -/
structure CooldownState where
  mem : String → Option ℤ
  redis : String → Option ℤ

/-- `StopLossGuardian._should_send_drawdown_alert` (guardian.py lines
417-424): no recorded cooldown means send; otherwise send iff the elapsed
time is at least the escalation interval. -/
def should_send_drawdown_alert (cool : CooldownState) (symbol : String) (now : ℤ)
    (cfg : Settings) : Bool :=
  match cool.mem symbol with
  | none => true
  | some last => decide (cfg.escalation_interval_minutes * 60 ≤ now - last)

/-- `StopLossGuardian._set_drawdown_cooldown` (guardian.py lines 426-438):
record `now` for the symbol both in memory and in Redis. -/
def set_drawdown_cooldown (cool : CooldownState) (symbol : String) (now : ℤ) :
    CooldownState :=
  { mem := fun s => if s = symbol then some now else cool.mem s
    redis := fun s => if s = symbol then some now else cool.redis s }

/-- `StopLossGuardian._handle_critical_drawdown` (guardian.py lines 338-356):
gate on the cooldown; when it passes, dispatch the drawdown alert (the
payload is built by `AlertDispatcher.send_drawdown_alert`; the Boolean here
records that the dispatch was performed) and record the cooldown. -/
def handle_critical_drawdown (cool : CooldownState) (symbol : String) (now : ℤ)
    (cfg : Settings) : Bool × CooldownState :=
  if should_send_drawdown_alert cool symbol now cfg then
    (true, set_drawdown_cooldown cool symbol now)
  else (false, cool)

/-- Observable outcome of `StopLossGuardian._check_position` for one
position in one cycle. -/
inductive CheckOutcome where
  /-- `tracking.acknowledged` short-circuit: no checks run. -/
  | acknowledgedSkip
  /-- The missing-stop branch ran: the dispatched alert (none when the
  should-send gate suppressed it) and the tracking record afterwards. -/
  | missingStop (alert : Option MissingStopAlert) (tr : TrackingRecord)
  /-- Stale price with a stop set: drawdown and trigger checks skipped. -/
  | staleSkip
  /-- Fresh price with a stop set: whether a critical-drawdown alert was
  dispatched, the cooldown state afterwards, and whether the informational
  stop-triggered notice fired. -/
  | activeChecks (drawdownSent : Bool) (cool : CooldownState) (stopNotice : Bool)

/-- `StopLossGuardian._check_position` (guardian.py lines 228-278) for a
position that has a tracking record.  In the fresh-price branch the
warning-drawdown case (`_handle_warning_drawdown`) only logs, because
`has_stop_loss` is true on every path that reaches it. -/
def check_position (cfg : Settings) (env : NotifierEnv) (pos : Position)
    (tr : TrackingRecord) (cool : CooldownState) (now : ℤ) : CheckOutcome :=
  if tr.acknowledged then CheckOutcome.acknowledgedSkip
  else
    let price_stale := is_price_stale cfg pos.price_updated_at now
    if pos.has_stop_loss = false then
      let r := handle_missing_stop_loss cfg env pos tr now price_stale
      CheckOutcome.missingStop r.1 r.2
    else if price_stale then CheckOutcome.staleSkip
    else
      let dd : Bool × CooldownState :=
        match pos.current_drawdown_pct with
        | some d =>
            if d ≤ -cfg.drawdown_critical_pct then
              handle_critical_drawdown cool pos.symbol now cfg
            else (false, cool)
        | none => (false, cool)
      CheckOutcome.activeChecks dd.1 dd.2 pos.stop_loss_triggered

/-! Concrete fixtures used to evaluate the model: the default settings from
`config.Settings`, notifier environments, and sample positions/records. -/

/-- The default configuration values of `config.Settings`. -/
def cfgDefault : Settings :=
  { escalation_interval_minutes := 60
    max_telegram_alerts := 2
    max_sms_alerts := 2
    drawdown_warning_pct := 5
    drawdown_critical_pct := 10
    default_stop_loss_pct := 10
    price_staleness_minutes := 15 }

/-- Every notification channel rejects the message. -/
def envAllFail : NotifierEnv := ⟨false, false, false⟩

/-- Every notification channel accepts the message. -/
def envAllOk : NotifierEnv := ⟨true, true, true⟩

/-- A tracking record that has never alerted and is not acknowledged. -/
def trFresh : TrackingRecord :=
  { alert_count := 0
    alert_escalation_level := "none"
    acknowledged := false
    missing_stop_alert_sent := false
    updated_at := 0 }

/-- A stop-less position whose fresh current price equals its entry price,
so its drawdown is exactly 0. -/
def posZeroDrawdown : Position :=
  { symbol := "AAPL"
    quantity := 10
    entry_price := 100
    current_price := some 100
    price_updated_at := some 1000
    stop_loss_price := none }

/-- A stop-less position with a fresh price 10% below entry. -/
def posFreshDown : Position :=
  { symbol := "AAPL"
    quantity := 10
    entry_price := 100
    current_price := some 90
    price_updated_at := some 1000
    stop_loss_price := none }

/-- An empty cooldown store (no symbol has ever alerted). -/
def coolEmpty : CooldownState := ⟨fun _ => none, fun _ => none⟩

/-- Claim C2 (failing-input evaluation): with the 15-minute staleness
threshold, a price timestamp whose age is exactly the threshold
(`now - t = 900s`) is reported as NOT stale by the code's strict
greater-than comparison, while the claim (and the repo's boundary test)
says it is stale.  A `none` timestamp is stale and an age one second below
the threshold is fresh, as the claim states. -/
theorem claim_C2 :
    is_price_stale cfgDefault (some 100) 1000 = false ∧
    is_price_stale cfgDefault none 1000 = true ∧
    is_price_stale cfgDefault (some 101) 1000 = false := by
  decide

/-- Claim C4: for every severity, current level in `{0,1,2}` and last-alert
time, `AlertDispatcher._determine_escalation` returns a level at least the
current level, and `StopLossGuardian._get_escalation_level` (count-based
promotion) returns a level at least the one stored in the record — so the
escalation level never decreases across decisions absent an
acknowledgment. -/
theorem claim_C4 (cfg : Settings) (sev : Severity) (current_level : ℤ)
    (last : Option ℤ) (now : ℤ) (tr : TrackingRecord)
    (h0 : 0 ≤ current_level) (h2 : current_level ≤ 2) :
    current_level ≤ determine_escalation cfg sev current_level last now ∧
    level_from_string tr.alert_escalation_level ≤ get_escalation_level cfg tr := by
  constructor
  · cases last with
    | none => cases sev <;> simp [determine_escalation] <;> (try split_ifs) <;> omega
    | some t => cases sev <;> simp [determine_escalation] <;> (try split_ifs) <;> omega
  · unfold get_escalation_level
    generalize level_from_string tr.alert_escalation_level = m
    dsimp only
    split_ifs <;> omega

/-- Witness for claim C4 at a concrete input. -/
theorem claim_C4_witness :
    (0 : ℤ) ≤ 1 ∧ (1 : ℤ) ≤ 2 ∧
    ((1 : ℤ) ≤ determine_escalation cfgDefault Severity.warning 1 (some 0) 100 ∧
     level_from_string trFresh.alert_escalation_level ≤ get_escalation_level cfgDefault trFresh) :=
  ⟨by decide, by decide,
   claim_C4 cfgDefault Severity.warning 1 (some 0) 100 trFresh (by decide) (by decide)⟩

/-- Claim C5: for every current escalation level and last-alert time,
`AlertDispatcher._determine_escalation` maps CRITICAL severity to level 2
unconditionally. -/
theorem claim_C5 (cfg : Settings) (current_level : ℤ) (last : Option ℤ) (now : ℤ) :
    determine_escalation cfg Severity.critical current_level last now = 2 := by
  simp [determine_escalation]

/-- Claim C6: after a critical-drawdown send for a symbol at `t0`, both the
in-memory and the persisted cooldown maps record `t0`; a send at any time
strictly before `t0 + interval` is suppressed and leaves the state
unchanged; a send at any time from `t0 + interval` on is allowed again. -/
theorem claim_C6 (cool : CooldownState) (symbol : String) (t0 t : ℤ) (cfg : Settings)
    (hsent : (handle_critical_drawdown cool symbol t0 cfg).1 = true) :
    ((handle_critical_drawdown cool symbol t0 cfg).2.mem symbol = some t0 ∧
     (handle_critical_drawdown cool symbol t0 cfg).2.redis symbol = some t0) ∧
    (t < t0 + cfg.escalation_interval_minutes * 60 →
      (handle_critical_drawdown (handle_critical_drawdown cool symbol t0 cfg).2
          symbol t cfg).1 = false ∧
      (handle_critical_drawdown (handle_critical_drawdown cool symbol t0 cfg).2
          symbol t cfg).2 = (handle_critical_drawdown cool symbol t0 cfg).2) ∧
    (t0 + cfg.escalation_interval_minutes * 60 ≤ t →
      (handle_critical_drawdown (handle_critical_drawdown cool symbol t0 cfg).2
          symbol t cfg).1 = true) := by
  have hsend_eq : ∀ (c : CooldownState) (s : String) (n : ℤ),
      should_send_drawdown_alert c s n cfg = true →
      handle_critical_drawdown c s n cfg = (true, set_drawdown_cooldown c s n) := by
    intro c s n h
    unfold handle_critical_drawdown
    rw [h]
    simp
  have hsupp_eq : ∀ (c : CooldownState) (s : String) (n : ℤ),
      should_send_drawdown_alert c s n cfg = false →
      handle_critical_drawdown c s n cfg = (false, c) := by
    intro c s n h
    unfold handle_critical_drawdown
    rw [h]
    simp
  have hg : should_send_drawdown_alert cool symbol t0 cfg = true := by
    by_contra hng
    rw [Bool.not_eq_true] at hng
    rw [hsupp_eq _ _ _ hng] at hsent
    simp at hsent
  have h2 : (handle_critical_drawdown cool symbol t0 cfg).2 =
      set_drawdown_cooldown cool symbol t0 := by
    rw [hsend_eq _ _ _ hg]
  have hmem : (handle_critical_drawdown cool symbol t0 cfg).2.mem symbol = some t0 := by
    rw [h2]
    simp [set_drawdown_cooldown]
  have hredis : (handle_critical_drawdown cool symbol t0 cfg).2.redis symbol = some t0 := by
    rw [h2]
    simp [set_drawdown_cooldown]
  have hgate : ∀ s : ℤ,
      should_send_drawdown_alert (handle_critical_drawdown cool symbol t0 cfg).2
        symbol s cfg = decide (cfg.escalation_interval_minutes * 60 ≤ s - t0) := by
    intro s
    unfold should_send_drawdown_alert
    rw [hmem]
  refine ⟨⟨hmem, hredis⟩, ?_, ?_⟩
  · intro ht
    have hfalse : should_send_drawdown_alert (handle_critical_drawdown cool symbol t0 cfg).2
        symbol t cfg = false := by
      rw [hgate t]
      simp only [decide_eq_false_iff_not]
      omega
    constructor
    · rw [hsupp_eq _ _ _ hfalse]
    · rw [hsupp_eq _ _ _ hfalse]
  · intro ht
    have htrue : should_send_drawdown_alert (handle_critical_drawdown cool symbol t0 cfg).2
        symbol t cfg = true := by
      rw [hgate t]
      simp only [decide_eq_true_eq]
      omega
    rw [hsend_eq _ _ _ htrue]

/-- Witness for claim C6: first send at `t0 = 0` with a 60-minute interval;
suppressed at `t0 + 30min`, allowed again at `t0 + 61min`. -/
theorem claim_C6_witness :
    (handle_critical_drawdown coolEmpty "AAPL" 0 cfgDefault).1 = true ∧
    (handle_critical_drawdown (handle_critical_drawdown coolEmpty "AAPL" 0 cfgDefault).2
        "AAPL" 1800 cfgDefault).1 = false ∧
    (handle_critical_drawdown (handle_critical_drawdown coolEmpty "AAPL" 0 cfgDefault).2
        "AAPL" 3660 cfgDefault).1 = true :=
  ⟨rfl,
   ((claim_C6 coolEmpty "AAPL" 0 1800 cfgDefault rfl).2.1 (by decide)).1,
   (claim_C6 coolEmpty "AAPL" 0 3660 cfgDefault rfl).2.2 (by decide)⟩

/-- Claim C3 (counterexample): with every notification channel failing, the
dispatched missing-stop alert reports failure (`sent = false`), yet the
tracking record is still updated — `alert_count` goes from 0 to 1 — because
`_handle_missing_stop_loss` calls `mark_alert_sent` unconditionally,
ignoring the dispatcher's success flag. -/
theorem claim_C3_counterexample :
    Option.map MissingStopAlert.sent
      (handle_missing_stop_loss cfgDefault envAllFail posZeroDrawdown trFresh 1000 false).1 =
      some false ∧
    (handle_missing_stop_loss cfgDefault envAllFail posZeroDrawdown trFresh 1000 false).2.alert_count = 1 ∧
    trFresh.alert_count = 0 := by
  simp [handle_missing_stop_loss, should_send_alert, get_escalation_level, level_from_string,
    missing_stop_severity, determine_escalation, get_channel, send_success, mark_alert_sent,
    channel_string, suggest_stop_loss, Position.current_drawdown_pct, posZeroDrawdown,
    trFresh, cfgDefault, envAllFail]

/-- Claim C3 (amended): whenever the should-send gate passes, the tracking
record is updated by `mark_alert_sent` — `alert_count` incremented,
`updated_at` set to now, the escalation level column set to the channel
string of the engine-determined level — regardless of whether any channel
send succeeded (the update is identical under any notifier outcome); when
the gate fails, nothing is dispatched and the record is unchanged. -/
theorem claim_C3_amended (cfg : Settings) (env env2 : NotifierEnv) (pos : Position)
    (tr : TrackingRecord) (now : ℤ) (stale : Bool) :
    (should_send_alert cfg tr now = true →
      (handle_missing_stop_loss cfg env pos tr now stale).2 =
        mark_alert_sent tr now (channel_string (get_escalation_level cfg tr)) ∧
      (handle_missing_stop_loss cfg env pos tr now stale).2.alert_count = tr.alert_count + 1 ∧
      (handle_missing_stop_loss cfg env pos tr now stale).2.updated_at = now ∧
      (handle_missing_stop_loss cfg env pos tr now stale).2 =
        (handle_missing_stop_loss cfg env2 pos tr now stale).2) ∧
    (should_send_alert cfg tr now = false →
      (handle_missing_stop_loss cfg env pos tr now stale).1 = none ∧
      (handle_missing_stop_loss cfg env pos tr now stale).2 = tr) := by
  constructor
  · intro h
    unfold handle_missing_stop_loss
    rw [h]
    simp [mark_alert_sent]
  · intro h
    unfold handle_missing_stop_loss
    rw [h]
    simp

/-- Witness for claim C3 (amended) at a concrete input where every channel
fails. -/
theorem claim_C3_amended_witness :
    should_send_alert cfgDefault trFresh 1000 = true ∧
    (handle_missing_stop_loss cfgDefault envAllFail posZeroDrawdown trFresh 1000 false).2.alert_count =
      trFresh.alert_count + 1 ∧
    (handle_missing_stop_loss cfgDefault envAllFail posZeroDrawdown trFresh 1000 false).2 =
      (handle_missing_stop_loss cfgDefault envAllOk posZeroDrawdown trFresh 1000 false).2 :=
  ⟨rfl,
   ((claim_C3_amended cfgDefault envAllFail envAllOk posZeroDrawdown trFresh 1000 false).1 rfl).2.1,
   ((claim_C3_amended cfgDefault envAllFail envAllOk posZeroDrawdown trFresh 1000 false).1 rfl).2.2.2⟩

/-- Claim C7 (counterexample): a stop-less position with a fresh price whose
drawdown is exactly 0 (current price = entry price) passes the gate and is
dispatched, but the payload's `drawdown_pct` is `none`, not the position's
drawdown `some 0` — Python's truthiness check `if drawdown_pct and not
stale` drops a zero value even when the price is fresh. -/
theorem claim_C7_counterexample :
    posZeroDrawdown.current_drawdown_pct = some 0 ∧
    is_price_stale cfgDefault posZeroDrawdown.price_updated_at 1000 = false ∧
    Option.map MissingStopAlert.drawdown_pct
      (handle_missing_stop_loss cfgDefault envAllOk posZeroDrawdown trFresh 1000
        (is_price_stale cfgDefault posZeroDrawdown.price_updated_at 1000)).1 = some none := by
  refine ⟨?_, ?_, ?_⟩
  · simp [Position.current_drawdown_pct, posZeroDrawdown]
  · decide
  · simp [handle_missing_stop_loss, should_send_alert, is_price_stale,
      Position.current_drawdown_pct, posZeroDrawdown, trFresh, cfgDefault]

/-- Claim C7 (amended): a stop-less, unacknowledged position whose tracking
record passes the should-send gate always gets a missing-stop alert
dispatched — also when the price is stale — and the tracking record is
updated; when the price is stale the payload's `current_price` and
`drawdown_pct` are null, and when it is fresh they carry the position's
current price and drawdown provided those values are present and nonzero
(a missing or zero value is sent as null even when fresh). -/
theorem claim_C7_amended (cfg : Settings) (env : NotifierEnv) (pos : Position)
    (tr : TrackingRecord) (cool : CooldownState) (now : ℤ)
    (hstop : pos.has_stop_loss = false)
    (hack : tr.acknowledged = false)
    (hsend : should_send_alert cfg tr now = true) :
    ∃ a, check_position cfg env pos tr cool now =
        CheckOutcome.missingStop (some a)
          (mark_alert_sent tr now (channel_string (get_escalation_level cfg tr))) ∧
      (is_price_stale cfg pos.price_updated_at now = true →
        a.current_price = none ∧ a.drawdown_pct = none) ∧
      (∀ c : ℚ, is_price_stale cfg pos.price_updated_at now = false →
        pos.current_price = some c → c ≠ 0 → a.current_price = some c) ∧
      (∀ d : ℚ, is_price_stale cfg pos.price_updated_at now = false →
        pos.current_drawdown_pct = some d → d ≠ 0 → a.drawdown_pct = some d) := by
  unfold check_position
  rw [hack, hstop]
  unfold handle_missing_stop_loss
  rw [hsend]
  simp only [Bool.false_eq_true, if_false, Bool.true_eq_false]
  refine ⟨_, rfl, ?_, ?_, ?_⟩
  · intro hstale
    constructor
    · cases hc : pos.current_price with
      | none => simp
      | some c => simp [hstale]
    · cases hd : pos.current_drawdown_pct with
      | none => simp
      | some d => simp [hstale]
  · intro c hfresh hc hc0
    rw [hc]
    simp [hfresh, hc0]
  · intro d hfresh hd hd0
    rw [hd]
    simp [hfresh, hd0]

/-- Witness for claim C7 (amended): a stop-less position 10% down with a
fresh price. -/
theorem claim_C7_amended_witness :
    posFreshDown.has_stop_loss = false ∧
    trFresh.acknowledged = false ∧
    should_send_alert cfgDefault trFresh 1000 = true ∧
    (∃ a, check_position cfgDefault envAllOk posFreshDown trFresh coolEmpty 1000 =
        CheckOutcome.missingStop (some a)
          (mark_alert_sent trFresh 1000 (channel_string (get_escalation_level cfgDefault trFresh))) ∧
      (is_price_stale cfgDefault posFreshDown.price_updated_at 1000 = true →
        a.current_price = none ∧ a.drawdown_pct = none) ∧
      (∀ c : ℚ, is_price_stale cfgDefault posFreshDown.price_updated_at 1000 = false →
        posFreshDown.current_price = some c → c ≠ 0 → a.current_price = some c) ∧
      (∀ d : ℚ, is_price_stale cfgDefault posFreshDown.price_updated_at 1000 = false →
        posFreshDown.current_drawdown_pct = some d → d ≠ 0 → a.drawdown_pct = some d)) :=
  ⟨rfl, rfl, rfl,
   claim_C7_amended cfgDefault envAllOk posFreshDown trFresh coolEmpty 1000 rfl rfl rfl⟩

/-! Position-sizer lemmas and claims. -/

theorem calculate_of_valid {entry stop : ℚ} (r p : ℚ) (symbol : String)
    (balance : ℚ) (target : Option ℚ) (hstop : 0 < stop) (hlt : stop < entry) :
    calculate r p symbol entry stop balance target =
      calculateMain r p symbol entry stop balance target := by
  have hentry : 0 < entry := lt_trans hstop hlt
  unfold calculate
  rw [if_neg (not_le.mpr hentry), if_neg (not_le.mpr hstop), if_neg (not_le.mpr hlt)]

theorem calculateMain_max_shares (r p : ℚ) (symbol : String)
    (entry stop balance : ℚ) (target : Option ℚ) :
    (calculateMain r p symbol entry stop balance target).max_shares =
      min (ratTruncDown (balance * (r / 100) / (entry - stop)))
          (ratTruncDown (balance * (p / 100) / entry)) := rfl

/-- Claim C1: for positive inputs with `stop < entry`, `max_shares` equals
`min(floor(balance*maxRiskPct/100/(entry-stop)), floor(balance*maxPositionPct/100/entry))`
and is never negative. -/
theorem claim_C1 (r p : ℚ) (symbol : String) (entry stop balance : ℚ)
    (target : Option ℚ) (hstop : 0 < stop) (hlt : stop < entry)
    (hbal : 0 < balance) (hr : 0 < r) (hp : 0 < p) :
    (calculate r p symbol entry stop balance target).max_shares =
      min ⌊balance * r / 100 / (entry - stop)⌋ ⌊balance * p / 100 / entry⌋ ∧
    0 ≤ (calculate r p symbol entry stop balance target).max_shares := by
  have hentry : 0 < entry := lt_trans hstop hlt
  have hrps : (0 : ℚ) < entry - stop := sub_pos.mpr hlt
  have hq1 : (0 : ℚ) ≤ balance * (r / 100) / (entry - stop) :=
    div_nonneg (mul_nonneg hbal.le (div_nonneg hr.le (by norm_num))) hrps.le
  have hq2 : (0 : ℚ) ≤ balance * (p / 100) / entry :=
    div_nonneg (mul_nonneg hbal.le (div_nonneg hp.le (by norm_num))) hentry.le
  have harg1 : balance * (r / 100) / (entry - stop) = balance * r / 100 / (entry - stop) := by
    ring
  have harg2 : balance * (p / 100) / entry = balance * p / 100 / entry := by
    ring
  rw [calculate_of_valid r p symbol balance target hstop hlt, calculateMain_max_shares,
    ratTruncDown_of_nonneg hq1, ratTruncDown_of_nonneg hq2, harg1, harg2]
  refine ⟨rfl, le_min ?_ ?_⟩
  · exact Int.le_floor.mpr (by rw [← harg1]; exact_mod_cast hq1)
  · exact Int.le_floor.mpr (by rw [← harg2]; exact_mod_cast hq2)

/-- Witness for claim C1 at the spec's worked example
(entry 150, stop 140, equity 10000, caps 2% and 20%). -/
theorem claim_C1_witness :
    (0 : ℚ) < 140 ∧ (140 : ℚ) < 150 ∧ (0 : ℚ) < 10000 ∧ (0 : ℚ) < 2 ∧ (0 : ℚ) < 20 ∧
    ((calculate 2 20 "AAPL" 150 140 10000 none).max_shares =
      min ⌊(10000 : ℚ) * 2 / 100 / (150 - 140)⌋ ⌊(10000 : ℚ) * 20 / 100 / 150⌋ ∧
     0 ≤ (calculate 2 20 "AAPL" 150 140 10000 none).max_shares) :=
  ⟨by norm_num, by norm_num, by norm_num, by norm_num, by norm_num,
   claim_C1 2 20 "AAPL" 150 140 10000 none (by norm_num) (by norm_num) (by norm_num)
     (by norm_num) (by norm_num)⟩

/-- Claim C10: holding everything but the account balance fixed (with
`0 < stop < entry` and nonnegative caps), `max_shares` is monotone
non-decreasing in the account balance. -/
theorem claim_C10 (r p : ℚ) (symbol : String) (entry stop b1 b2 : ℚ)
    (target : Option ℚ) (hstop : 0 < stop) (hlt : stop < entry)
    (hr : 0 ≤ r) (hp : 0 ≤ p) (hb : b1 ≤ b2) :
    (calculate r p symbol entry stop b1 target).max_shares ≤
      (calculate r p symbol entry stop b2 target).max_shares := by
  have hentry : 0 < entry := lt_trans hstop hlt
  have hrps : (0 : ℚ) < entry - stop := sub_pos.mpr hlt
  rw [calculate_of_valid r p symbol b1 target hstop hlt,
      calculate_of_valid r p symbol b2 target hstop hlt,
      calculateMain_max_shares, calculateMain_max_shares]
  have h1 : b1 * (r / 100) / (entry - stop) ≤ b2 * (r / 100) / (entry - stop) :=
    div_le_div_of_nonneg_right (mul_le_mul_of_nonneg_right hb (div_nonneg hr (by norm_num))) hrps.le
  have h2 : b1 * (p / 100) / entry ≤ b2 * (p / 100) / entry :=
    div_le_div_of_nonneg_right (mul_le_mul_of_nonneg_right hb (div_nonneg hp (by norm_num))) hentry.le
  exact min_le_min (ratTruncDown_mono h1) (ratTruncDown_mono h2)

/-- Witness for claim C10: doubling the balance from 5000 to 10000. -/
theorem claim_C10_witness :
    (0 : ℚ) < 140 ∧ (140 : ℚ) < 150 ∧ (0 : ℚ) ≤ 2 ∧ (0 : ℚ) ≤ 20 ∧ (5000 : ℚ) ≤ 10000 ∧
    (calculate 2 20 "AAPL" 150 140 5000 none).max_shares ≤
      (calculate 2 20 "AAPL" 150 140 10000 none).max_shares :=
  ⟨by norm_num, by norm_num, by norm_num, by norm_num, by norm_num,
   claim_C10 2 20 "AAPL" 150 140 5000 10000 none (by norm_num) (by norm_num)
     (by norm_num) (by norm_num) (by norm_num)⟩

theorem ratTruncDown_cast_le_self {q : ℚ} (h : 1 ≤ ratTruncDown q) :
    ((ratTruncDown q : ℤ) : ℚ) ≤ q := by
  unfold ratTruncDown at h ⊢
  by_cases hq : 0 ≤ q
  · rw [if_pos hq] at h ⊢
    exact Int.floor_le q
  · rw [if_neg hq] at h
    exfalso
    have hc : ⌈q⌉ ≤ 0 := Int.ceil_le.mpr (by exact_mod_cast le_of_not_le hq)
    omega

/-- Claim C8: the three input validations fire in order (entry ≤ 0, then
stop ≤ 0, then stop ≥ entry), each returning the all-zero invalid result
with the matching blocking reason; and when both share bounds truncate to
0, the result is invalid with the too-expensive reason. -/
theorem claim_C8 (r p : ℚ) (symbol : String) (entry stop balance : ℚ)
    (target : Option ℚ) (hr : 0 ≤ r) (hp : 0 ≤ p) :
    (entry ≤ 0 →
      calculate r p symbol entry stop balance target =
        invalidResult symbol entry stop balance BlockReason.entryNotPositive) ∧
    (0 < entry → stop ≤ 0 →
      calculate r p symbol entry stop balance target =
        invalidResult symbol entry stop balance BlockReason.stopNotPositive) ∧
    (0 < entry → 0 < stop → entry ≤ stop →
      calculate r p symbol entry stop balance target =
        invalidResult symbol entry stop balance BlockReason.stopNotBelowEntry) ∧
    (0 < entry → 0 < stop → stop < entry →
      ratTruncDown (balance * (r / 100) / (entry - stop)) = 0 →
      ratTruncDown (balance * (p / 100) / entry) = 0 →
      (calculate r p symbol entry stop balance target).is_valid = false ∧
      ∃ m, (calculate r p symbol entry stop balance target).blocked_reason =
        some (BlockReason.tooExpensive m)) := by
  refine ⟨?_, ?_, ?_, ?_⟩
  · intro h
    unfold calculate
    rw [if_pos h]
  · intro hentry h
    unfold calculate
    rw [if_neg (not_le.mpr hentry), if_pos h]
  · intro hentry hstop h
    unfold calculate
    rw [if_neg (not_le.mpr hentry), if_neg (not_le.mpr hstop), if_pos h]
  · intro hentry hstop hlt ht1 ht2
    rw [calculate_of_valid r p symbol balance target hstop hlt]
    have hr' : ¬ r < (0 : ℚ) := not_lt.mpr hr
    have hp' : ¬ p < (0 : ℚ) := not_lt.mpr hp
    refine ⟨?_, 1, ?_⟩
    · simp [calculateMain, ht1, ht2, hr', hp']
    · simp [calculateMain, ht1, ht2, hr', hp']

/-- Witness for claim C8 at the spec's MOH example: entry 180.97, stop
162.87, equity 888, caps 2% and 20% — both share bounds truncate to 0, so
the result is blocked as too expensive. -/
theorem claim_C8_witness :
    (0 : ℚ) ≤ 2 ∧ (0 : ℚ) ≤ 20 ∧ (0 : ℚ) < 18097 / 100 ∧ (0 : ℚ) < 16287 / 100 ∧
    (16287 / 100 : ℚ) < 18097 / 100 ∧
    ratTruncDown ((888 : ℚ) * (2 / 100) / (18097 / 100 - 16287 / 100)) = 0 ∧
    ratTruncDown ((888 : ℚ) * (20 / 100) / (18097 / 100)) = 0 ∧
    ((calculate 2 20 "MOH" (18097 / 100) (16287 / 100) 888 none).is_valid = false ∧
     ∃ m, (calculate 2 20 "MOH" (18097 / 100) (16287 / 100) 888 none).blocked_reason =
       some (BlockReason.tooExpensive m)) := by
  have h1 : ratTruncDown ((888 : ℚ) * (2 / 100) / (18097 / 100 - 16287 / 100)) = 0 := by
    rw [ratTruncDown_of_nonneg (by norm_num)]
    norm_num
  have h2 : ratTruncDown ((888 : ℚ) * (20 / 100) / (18097 / 100)) = 0 := by
    rw [ratTruncDown_of_nonneg (by norm_num)]
    norm_num
  exact ⟨by norm_num, by norm_num, by norm_num, by norm_num, by norm_num, h1, h2,
    (claim_C8 2 20 "MOH" (18097 / 100) (16287 / 100) 888 none (by norm_num) (by norm_num)).2.2.2
      (by norm_num) (by norm_num) (by norm_num) h1 h2⟩

/-- Claim C9: for inputs passing all validation gates with at least one
affordable share, the computed risk percentage is at most the risk cap and
the computed position percentage at most the position cap (exact
arithmetic), so the cap-exceeded branches never fire and the result is
valid with no blocking reason. -/
theorem claim_C9 (r p : ℚ) (symbol : String) (entry stop balance : ℚ)
    (target : Option ℚ) (hstop : 0 < stop) (hlt : stop < entry) (hbal : 0 < balance)
    (hms : 1 ≤ (calculate r p symbol entry stop balance target).max_shares) :
    (calculate r p symbol entry stop balance target).risk_pct ≤ r ∧
    (calculate r p symbol entry stop balance target).position_pct ≤ p ∧
    (calculate r p symbol entry stop balance target).is_valid = true ∧
    (calculate r p symbol entry stop balance target).blocked_reason = none := by
  have hentry : 0 < entry := lt_trans hstop hlt
  have hrps : (0 : ℚ) < entry - stop := sub_pos.mpr hlt
  rw [calculate_of_valid r p symbol balance target hstop hlt] at hms ⊢
  rw [calculateMain_max_shares] at hms
  have h1 : 1 ≤ ratTruncDown (balance * (r / 100) / (entry - stop)) :=
    le_trans hms (min_le_left _ _)
  have h2 : 1 ≤ ratTruncDown (balance * (p / 100) / entry) :=
    le_trans hms (min_le_right _ _)
  have hc1 : ((min (ratTruncDown (balance * (r / 100) / (entry - stop)))
      (ratTruncDown (balance * (p / 100) / entry)) : ℤ) : ℚ) ≤
      balance * (r / 100) / (entry - stop) :=
    le_trans (by exact_mod_cast min_le_left _ _) (ratTruncDown_cast_le_self h1)
  have hc2 : ((min (ratTruncDown (balance * (r / 100) / (entry - stop)))
      (ratTruncDown (balance * (p / 100) / entry)) : ℤ) : ℚ) ≤
      balance * (p / 100) / entry :=
    le_trans (by exact_mod_cast min_le_right _ _) (ratTruncDown_cast_le_self h2)
  have hpos : (0 : ℤ) < min (ratTruncDown (balance * (r / 100) / (entry - stop)))
      (ratTruncDown (balance * (p / 100) / entry)) := by omega
  have hmul1 : ((min (ratTruncDown (balance * (r / 100) / (entry - stop)))
      (ratTruncDown (balance * (p / 100) / entry)) : ℤ) : ℚ) * (entry - stop) ≤
      balance * (r / 100) := (le_div_iff₀ hrps).mp hc1
  have hmul2 : ((min (ratTruncDown (balance * (r / 100) / (entry - stop)))
      (ratTruncDown (balance * (p / 100) / entry)) : ℤ) : ℚ) * entry ≤
      balance * (p / 100) := (le_div_iff₀ hentry).mp hc2
  have hrisk : ((min (ratTruncDown (balance * (r / 100) / (entry - stop)))
      (ratTruncDown (balance * (p / 100) / entry)) : ℤ) : ℚ) * (entry - stop) / balance * 100 ≤ r := by
    rw [div_mul_eq_mul_div, div_le_iff₀ hbal]
    nlinarith [hmul1]
  have hposn : ((min (ratTruncDown (balance * (r / 100) / (entry - stop)))
      (ratTruncDown (balance * (p / 100) / entry)) : ℤ) : ℚ) * entry / balance * 100 ≤ p := by
    rw [div_mul_eq_mul_div, div_le_iff₀ hbal]
    nlinarith [hmul2]
  have hne : ¬ (min (ratTruncDown (balance * (r / 100) / (entry - stop)))
      (ratTruncDown (balance * (p / 100) / entry)) = 0) := by omega
  refine ⟨?_, ?_, ?_, ?_⟩
  · simp only [calculateMain]
    simp only [if_pos hpos]
    exact hrisk
  · simp only [calculateMain]
    simp only [if_pos hpos]
    exact hposn
  · simp only [calculateMain]
    simp only [if_pos hpos]
    simp only [if_neg hne]
    split_ifs with hA hB hC
    all_goals try rfl
    all_goals try (exfalso; exact absurd hposn (not_le.mpr hA))
    all_goals try (exfalso; exact absurd hrisk (not_le.mpr hB))
  · simp only [calculateMain]
    simp only [if_pos hpos]
    simp only [if_neg hne]
    split_ifs with hA hB hC
    all_goals try rfl
    all_goals try (exfalso; exact absurd hposn (not_le.mpr hA))
    all_goals try (exfalso; exact absurd hrisk (not_le.mpr hB))

/-- Witness for claim C9 at the spec's worked example
(entry 150, stop 140, equity 10000, caps 2% and 20%). -/
theorem claim_C9_witness :
    (0 : ℚ) < 140 ∧ (140 : ℚ) < 150 ∧ (0 : ℚ) < 10000 ∧
    1 ≤ (calculate 2 20 "AAPL" 150 140 10000 none).max_shares ∧
    ((calculate 2 20 "AAPL" 150 140 10000 none).risk_pct ≤ 2 ∧
     (calculate 2 20 "AAPL" 150 140 10000 none).position_pct ≤ 20 ∧
     (calculate 2 20 "AAPL" 150 140 10000 none).is_valid = true ∧
     (calculate 2 20 "AAPL" 150 140 10000 none).blocked_reason = none) := by
  have hms : 1 ≤ (calculate 2 20 "AAPL" 150 140 10000 none).max_shares := by
    rw [calculate_of_valid 2 20 "AAPL" 10000 none (by norm_num) (by norm_num),
      calculateMain_max_shares]
    rw [ratTruncDown_of_nonneg (by norm_num), ratTruncDown_of_nonneg (by norm_num)]
    rw [le_min_iff]
    constructor <;> (rw [Int.le_floor]; push_cast; norm_num)
  exact ⟨by norm_num, by norm_num, by norm_num, hms,
    claim_C9 2 20 "AAPL" 150 140 10000 none (by norm_num) (by norm_num) (by norm_num) hms⟩

end StopLossGuardian
